import Mathlib

/-!
Verification development for the status-aggregation core of the
aruba-provisioner repository (Go).  The Go sources are shallowly embedded:
pure functions become Lean functions, Kubernetes API calls become fields of
an explicit `KubeWorld` record, the in-memory cache becomes an explicit
map value threaded through the orchestrator, machine integers (`int32`,
`int`) become `Int`, and Go instants become `Int` timestamps.
-/

/- ## Data model (src/unnamed/part_000, types block) -/

/-- Go: `type ProvisioningStatus string`. -/
abbrev ProvisioningStatus := String

def StatusProvisioning : ProvisioningStatus := "PROVISIONING"

def StatusReady : ProvisioningStatus := "READY"

def StatusDegraded : ProvisioningStatus := "DEGRADED"

def StatusFailed : ProvisioningStatus := "FAILED"

def StatusDeleting : ProvisioningStatus := "DELETING"

def StatusNotFound : ProvisioningStatus := "NOT_FOUND"

structure ReplicaStatus where
  desired : Int
  current : Int
  ready : Int
deriving DecidableEq, Repr

structure ComponentStatus where
  status : String
  ready : Bool
  replicas : ReplicaStatus
  message : String
deriving DecidableEq, Repr

structure Event where
  timestamp : Int
  type : String
  message : String
deriving DecidableEq, Repr

/-- The fields of `appsv1.Deployment` read by the evaluator: `Spec.Replicas`
(a nullable pointer, hence `Option`), `Status.Replicas`,
`Status.ReadyReplicas` and `Status.UnavailableReplicas`. -/
structure DeploymentData where
  specReplicas : Option Int
  statusReplicas : Int
  readyReplicas : Int
  unavailableReplicas : Int
deriving DecidableEq, Repr

/-- The fields of `appsv1.StatefulSet` read by the evaluator. -/
structure StatefulSetData where
  specReplicas : Option Int
  statusReplicas : Int
  readyReplicas : Int
deriving DecidableEq, Repr

/- ## Component evaluator (src/unnamed/part_001, GetDeploymentStatus /
GetStatefulSetStatus) -/

/-- Embeds `StatusEvaluator.GetDeploymentStatus`; the Go locals `desired`
(`*Spec.Replicas`, defaulting to 1 when nil), `current` and `ready` are
inlined. -/
def GetDeploymentStatus (d : DeploymentData) : ComponentStatus :=
  if d.readyReplicas = d.specReplicas.getD 1 ∧ d.specReplicas.getD 1 > 0 then
    ⟨"Running", true, ⟨d.specReplicas.getD 1, d.statusReplicas, d.readyReplicas⟩, ""⟩
  else if d.statusReplicas = 0 then
    ⟨"Pending", false, ⟨d.specReplicas.getD 1, d.statusReplicas, d.readyReplicas⟩,
      "No pods are running"⟩
  else if d.readyReplicas < d.specReplicas.getD 1 then
    ⟨"Starting", false, ⟨d.specReplicas.getD 1, d.statusReplicas, d.readyReplicas⟩,
      toString d.readyReplicas ++ " of " ++ toString (d.specReplicas.getD 1) ++
        " replicas ready"⟩
  else if d.unavailableReplicas > 0 then
    ⟨"Degraded", false, ⟨d.specReplicas.getD 1, d.statusReplicas, d.readyReplicas⟩,
      toString d.unavailableReplicas ++ " replicas unavailable"⟩
  else
    ⟨"Unknown", false, ⟨d.specReplicas.getD 1, d.statusReplicas, d.readyReplicas⟩, ""⟩

/-- Embeds `StatusEvaluator.GetStatefulSetStatus`; identical to the
deployment evaluator except that the `UnavailableReplicas` rule is absent. -/
def GetStatefulSetStatus (s : StatefulSetData) : ComponentStatus :=
  if s.readyReplicas = s.specReplicas.getD 1 ∧ s.specReplicas.getD 1 > 0 then
    ⟨"Running", true, ⟨s.specReplicas.getD 1, s.statusReplicas, s.readyReplicas⟩, ""⟩
  else if s.statusReplicas = 0 then
    ⟨"Pending", false, ⟨s.specReplicas.getD 1, s.statusReplicas, s.readyReplicas⟩,
      "No pods are running"⟩
  else if s.readyReplicas < s.specReplicas.getD 1 then
    ⟨"Starting", false, ⟨s.specReplicas.getD 1, s.statusReplicas, s.readyReplicas⟩,
      toString s.readyReplicas ++ " of " ++ toString (s.specReplicas.getD 1) ++
        " replicas ready"⟩
  else
    ⟨"Unknown", false, ⟨s.specReplicas.getD 1, s.statusReplicas, s.readyReplicas⟩, ""⟩

/-- C2: `GetDeploymentStatus` applies the five-rule first-match precedence
chain with `desired` defaulting to 1 when the spec omits a replica count,
and the returned `ReplicaStatus` carries exactly the (defaulted) desired,
current and ready counts. -/
theorem getDeploymentStatus_precedence (d : DeploymentData) :
    (GetDeploymentStatus d).replicas =
      ⟨d.specReplicas.getD 1, d.statusReplicas, d.readyReplicas⟩
    ∧ (d.specReplicas = none → (GetDeploymentStatus d).replicas.desired = 1)
    ∧ (d.readyReplicas = d.specReplicas.getD 1 ∧ d.specReplicas.getD 1 > 0 →
        GetDeploymentStatus d =
          ⟨"Running", true, ⟨d.specReplicas.getD 1, d.statusReplicas, d.readyReplicas⟩, ""⟩)
    ∧ (¬(d.readyReplicas = d.specReplicas.getD 1 ∧ d.specReplicas.getD 1 > 0) →
        d.statusReplicas = 0 →
        GetDeploymentStatus d =
          ⟨"Pending", false, ⟨d.specReplicas.getD 1, d.statusReplicas, d.readyReplicas⟩,
            "No pods are running"⟩)
    ∧ (¬(d.readyReplicas = d.specReplicas.getD 1 ∧ d.specReplicas.getD 1 > 0) →
        d.statusReplicas ≠ 0 → d.readyReplicas < d.specReplicas.getD 1 →
        GetDeploymentStatus d =
          ⟨"Starting", false, ⟨d.specReplicas.getD 1, d.statusReplicas, d.readyReplicas⟩,
            toString d.readyReplicas ++ " of " ++ toString (d.specReplicas.getD 1) ++
              " replicas ready"⟩)
    ∧ (¬(d.readyReplicas = d.specReplicas.getD 1 ∧ d.specReplicas.getD 1 > 0) →
        d.statusReplicas ≠ 0 → ¬(d.readyReplicas < d.specReplicas.getD 1) →
        d.unavailableReplicas > 0 →
        GetDeploymentStatus d =
          ⟨"Degraded", false, ⟨d.specReplicas.getD 1, d.statusReplicas, d.readyReplicas⟩,
            toString d.unavailableReplicas ++ " replicas unavailable"⟩)
    ∧ (¬(d.readyReplicas = d.specReplicas.getD 1 ∧ d.specReplicas.getD 1 > 0) →
        d.statusReplicas ≠ 0 → ¬(d.readyReplicas < d.specReplicas.getD 1) →
        ¬(d.unavailableReplicas > 0) →
        GetDeploymentStatus d =
          ⟨"Unknown", false, ⟨d.specReplicas.getD 1, d.statusReplicas, d.readyReplicas⟩, ""⟩) := by
  refine ⟨?_, ?_, ?_, ?_, ?_, ?_, ?_⟩
  · unfold GetDeploymentStatus; split_ifs <;> rfl
  · intro h
    unfold GetDeploymentStatus
    split_ifs <;> simp [h]
  · intro h; unfold GetDeploymentStatus; rw [if_pos h]
  · intro h1 h2; unfold GetDeploymentStatus; rw [if_neg h1, if_pos h2]
  · intro h1 h2 h3; unfold GetDeploymentStatus; rw [if_neg h1, if_neg h2, if_pos h3]
  · intro h1 h2 h3 h4
    unfold GetDeploymentStatus
    rw [if_neg h1, if_neg h2, if_neg h3, if_pos h4]
  · intro h1 h2 h3 h4
    unfold GetDeploymentStatus
    rw [if_neg h1, if_neg h2, if_neg h3, if_neg h4]

theorem getDeploymentStatus_precedence_witness :
    GetDeploymentStatus ⟨some 3, 3, 3, 0⟩ = ⟨"Running", true, ⟨3, 3, 3⟩, ""⟩
    ∧ GetDeploymentStatus ⟨some 3, 0, 0, 0⟩ =
        ⟨"Pending", false, ⟨3, 0, 0⟩, "No pods are running"⟩
    ∧ GetDeploymentStatus ⟨some 3, 2, 1, 0⟩ =
        ⟨"Starting", false, ⟨3, 2, 1⟩, "1 of 3 replicas ready"⟩ :=
  ⟨(getDeploymentStatus_precedence ⟨some 3, 3, 3, 0⟩).2.2.1 (by decide),
   (getDeploymentStatus_precedence ⟨some 3, 0, 0, 0⟩).2.2.2.1 (by decide) (by decide),
   (getDeploymentStatus_precedence ⟨some 3, 2, 1, 0⟩).2.2.2.2.1 (by decide) (by decide) (by decide)⟩

/-- C9: on equal replica inputs with an unavailable count of 0 the two
evaluators agree, and any disagreement forces all of rules 1-3 to fail and
the deployment's unavailable count to be positive. -/
theorem deployment_statefulset_agree (s : Option Int) (cur rdy unavail : Int) :
    (unavail = 0 →
      GetDeploymentStatus ⟨s, cur, rdy, unavail⟩ = GetStatefulSetStatus ⟨s, cur, rdy⟩)
    ∧ (GetDeploymentStatus ⟨s, cur, rdy, unavail⟩ ≠ GetStatefulSetStatus ⟨s, cur, rdy⟩ →
        ¬(rdy = s.getD 1 ∧ s.getD 1 > 0) ∧ cur ≠ 0 ∧ ¬(rdy < s.getD 1) ∧ unavail > 0) := by
  unfold GetDeploymentStatus GetStatefulSetStatus
  constructor
  · intro h
    subst h
    dsimp only
    split_ifs <;> first | rfl | (exfalso; omega)
  · intro h
    split_ifs at h with h1 h2 h3 h4 <;> try (exact absurd rfl h)
    exact ⟨h1, h2, h3, h4⟩

theorem deployment_statefulset_agree_witness :
    GetDeploymentStatus ⟨some 2, 1, 1, 0⟩ = GetStatefulSetStatus ⟨some 2, 1, 1⟩
    ∧ (0 : Int) < 2 :=
  ⟨(deployment_statefulset_agree (some 2) 1 1 0).1 rfl,
   ((deployment_statefulset_agree (some 0) 1 0 2).2 (by decide)).2.2.2⟩

/- ## Overall-status reducer (src/unnamed/part_001, DetermineOverallStatus) -/

/-- Go: `var criticalDeployments = []string{...}`. -/
def criticalDeployments : List String :=
  ["controlplane", "dataplane", "identityhub", "postgres"]

/-- The component mapping `map[string]ComponentStatus`, embedded as an
association list; Go map semantics are recovered through `mapGet` /
`mapSet`. -/
abbrev AssocMap (α : Type) := List (String × α)

def mapGet {α : Type} (m : AssocMap α) (k : String) : Option α :=
  (m.find? (fun p => p.1 == k)).map (fun p => p.2)

/-- Go map assignment `m[k] = v`: replace the binding if the key exists,
otherwise add it. -/
def mapSet {α : Type} (m : AssocMap α) (k : String) (v : α) : AssocMap α :=
  if (m.find? (fun p => p.1 == k)).isSome then
    m.map (fun p => if p.1 == k then (k, v) else p)
  else
    m ++ [(k, v)]

/-- The reducer's inner membership test over `criticalDeployments`. -/
def isCriticalName (n : String) : Bool := criticalDeployments.contains n

/-- The first loop of `DetermineOverallStatus` over the critical names:
returns `(allCriticalReady, criticalNotReadyCount, messages)` exactly as
the Go loop computes them, message order included. -/
def criticalScan (m : AssocMap ComponentStatus) : List String → Bool × Nat × List String
  | [] => (true, 0, [])
  | n :: rest =>
    let r := criticalScan m rest
    match mapGet m n with
    | none => (false, r.2.1 + 1, ("Critical component " ++ n ++ " not found") :: r.2.2)
    | some comp =>
      if comp.ready then r
      else
        (false, r.2.1 + 1,
          if comp.message ≠ "" then (n ++ ": " ++ comp.message) :: r.2.2 else r.2.2)

/-- Embeds `StatusEvaluator.DetermineOverallStatus`. -/
def DetermineOverallStatus (components : AssocMap ComponentStatus) :
    ProvisioningStatus × String :=
  if components.length = 0 then
    (StatusProvisioning, "No components found, provisioning may be in progress")
  else
    let scan := criticalScan components criticalDeployments
    let anyNonCriticalNotReady :=
      components.any (fun p => !isCriticalName p.1 && !p.2.ready)
    if scan.1 && !anyNonCriticalNotReady then
      (StatusReady, "All components are running and ready")
    else if scan.1 && anyNonCriticalNotReady then
      (StatusDegraded,
        "All critical components ready, but some non-critical components are not ready")
    else if scan.2.1 = criticalDeployments.length then
      (StatusProvisioning, "Critical components are not yet ready")
    else
      let msg := toString scan.2.1 ++ " of " ++ toString criticalDeployments.length ++
        " critical components not ready"
      (StatusDegraded,
        match scan.2.2 with
        | [] => msg
        | m0 :: _ => msg ++ ": " ++ m0)

/-- Rewritten from the spec's words: is the critical name present in the
mapping and ready? -/
def criticalPresentReady (m : AssocMap ComponentStatus) (n : String) : Bool :=
  match mapGet m n with
  | some c => c.ready
  | none => false

/-- The four-row decision table of claim C1, written as the claim states
it ("recorded" messages are the ones the scan of the critical names
records, see `criticalScan`). -/
def specOverallStatus (m : AssocMap ComponentStatus) : ProvisioningStatus × String :=
  if m.length = 0 then
    (StatusProvisioning, "No components found, provisioning may be in progress")
  else if criticalDeployments.all (criticalPresentReady m)
      && m.all (fun p => isCriticalName p.1 || p.2.ready) then
    (StatusReady, "All components are running and ready")
  else if criticalDeployments.all (criticalPresentReady m)
      && m.any (fun p => !isCriticalName p.1 && !p.2.ready) then
    (StatusDegraded,
      "All critical components ready, but some non-critical components are not ready")
  else if criticalDeployments.countP (fun n => !criticalPresentReady m n) = 4 then
    (StatusProvisioning, "Critical components are not yet ready")
  else
    let msg := toString (criticalDeployments.countP (fun n => !criticalPresentReady m n)) ++
      " of 4 critical components not ready"
    (StatusDegraded,
      match (criticalScan m criticalDeployments).2.2 with
      | [] => msg
      | m0 :: _ => msg ++ ": " ++ m0)

theorem criticalPresentReady_of_none {m : AssocMap ComponentStatus} {n : String}
    (h : mapGet m n = none) : criticalPresentReady m n = false := by
  unfold criticalPresentReady; rw [h]

theorem criticalPresentReady_of_some {m : AssocMap ComponentStatus} {n : String}
    {c : ComponentStatus} (h : mapGet m n = some c) :
    criticalPresentReady m n = c.ready := by
  unfold criticalPresentReady; rw [h]

theorem criticalScan_fst (m : AssocMap ComponentStatus) (names : List String) :
    (criticalScan m names).1 = names.all (criticalPresentReady m) := by
  induction names with
  | nil => rfl
  | cons n rest ih =>
    rw [List.all_cons]
    unfold criticalScan
    cases h : mapGet m n with
    | none => rw [criticalPresentReady_of_none h]; simp
    | some comp =>
      rw [criticalPresentReady_of_some h]
      cases hr : comp.ready <;> simp [hr, ih]

theorem criticalScan_count (m : AssocMap ComponentStatus) (names : List String) :
    (criticalScan m names).2.1 = names.countP (fun n => !criticalPresentReady m n) := by
  induction names with
  | nil => rfl
  | cons n rest ih =>
    rw [List.countP_cons]
    unfold criticalScan
    cases h : mapGet m n with
    | none => rw [criticalPresentReady_of_none h]; simp [ih]
    | some comp =>
      rw [criticalPresentReady_of_some h]
      cases hr : comp.ready <;> simp [hr, ih]

theorem list_all_eq_not_any_not {α : Type} (l : List α) (p : α → Bool) :
    l.all p = !l.any (fun a => !p a) := by
  induction l with
  | nil => rfl
  | cons a l ih => cases h : p a <;> simp [h, ih]

theorem critMsg_eq (cnt : Nat) :
    toString cnt ++ " of " ++ toString (4 : Nat) ++ " critical components not ready"
      = toString cnt ++ " of 4 critical components not ready" := by
  rw [String.append_assoc, String.append_assoc]
  exact congrArg (toString cnt ++ ·) rfl

/-- C1: `DetermineOverallStatus` equals the four-row decision table
(plus the empty-mapping row) evaluated in order. -/
theorem determineOverallStatus_matches_table (m : AssocMap ComponentStatus) :
    DetermineOverallStatus m = specOverallStatus m := by
  unfold DetermineOverallStatus specOverallStatus
  by_cases hlen : m.length = 0
  · simp [hlen]
  · simp only [hlen, if_false]
    rw [criticalScan_fst, criticalScan_count]
    rw [list_all_eq_not_any_not m (fun p => isCriticalName p.1 || p.2.ready)]
    have hnot : (fun (p : String × ComponentStatus) => !(isCriticalName p.1 || p.2.ready))
        = (fun p => !isCriticalName p.1 && !p.2.ready) := by
      funext p; cases hc : isCriticalName p.1 <;> cases hr : p.2.ready <;> simp [hc, hr]
    rw [hnot]
    have hlen4 : criticalDeployments.length = 4 := rfl
    rw [hlen4]
    cases ha : criticalDeployments.all (criticalPresentReady m) <;>
      cases hb : m.any (fun p => !isCriticalName p.1 && !p.2.ready) <;>
        simp only [ha, hb, Bool.true_and, Bool.false_and, Bool.and_true, Bool.and_false,
          Bool.not_true, Bool.not_false, if_true, if_false, Bool.true_eq_false,
          Bool.false_eq_true, ite_true, ite_false] <;>
      by_cases hc : criticalDeployments.countP (fun n => !criticalPresentReady m n) = 4 <;>
        simp only [hc, if_true, if_false, ite_true, ite_false] <;>
      cases hm : (criticalScan m criticalDeployments).2.2 with
      | nil => exact congrArg (fun s => (StatusDegraded, s)) (critMsg_eq _)
      | cons m0 tl =>
        exact congrArg (fun s => (StatusDegraded, s ++ ": " ++ m0)) (critMsg_eq _)

/- ## Claim C4: which messages the critical scan records -/

/-- A concrete component mapping: `controlplane` and `postgres` ready,
`identityhub` present but not ready with a message, `dataplane` absent. -/
def scanCex : AssocMap ComponentStatus :=
  [("controlplane", ⟨"Running", true, ⟨1, 1, 1⟩, ""⟩),
   ("identityhub", ⟨"Starting", false, ⟨1, 1, 0⟩, "0 of 1 replicas ready"⟩),
   ("postgres", ⟨"Running", true, ⟨1, 1, 1⟩, ""⟩)]

/-- C4 counterexample: the first recorded message of the critical scan on
`scanCex` is about the absent critical name `dataplane`; it is not of the
form `name ++ ": " ++ message` for any component present in the mapping,
and it is the message appended in the partial-degraded branch. -/
theorem criticalScan_records_absent_counterexample :
    (criticalScan scanCex criticalDeployments).2.2.head?
        = some "Critical component dataplane not found"
    ∧ mapGet scanCex "dataplane" = none
    ∧ (∀ p ∈ scanCex, ¬("Critical component dataplane not found" = p.1 ++ ": " ++ p.2.message))
    ∧ DetermineOverallStatus scanCex =
        (StatusDegraded,
          "2 of 4 critical components not ready: Critical component dataplane not found") := by
  refine ⟨rfl, rfl, ?_, rfl⟩
  decide

/-- C4 amended: every message the critical scan records is either the
synthetic "Critical component NAME not found" message of an absent
critical name, or the `NAME: MESSAGE` of a critical component present but
not ready with a non-empty message; in particular the first recorded
message may concern an absent critical name. -/
theorem criticalScan_messages_characterized (m : AssocMap ComponentStatus) (s : String)
    (hs : s ∈ (criticalScan m criticalDeployments).2.2) :
    (∃ n, n ∈ criticalDeployments ∧ mapGet m n = none
      ∧ s = "Critical component " ++ n ++ " not found")
    ∨ (∃ n c, n ∈ criticalDeployments ∧ mapGet m n = some c ∧ c.ready = false
      ∧ c.message ≠ "" ∧ s = n ++ ": " ++ c.message) := by
  have key : ∀ names : List String, s ∈ (criticalScan m names).2.2 →
      (∃ n, n ∈ names ∧ mapGet m n = none
        ∧ s = "Critical component " ++ n ++ " not found")
      ∨ (∃ n c, n ∈ names ∧ mapGet m n = some c ∧ c.ready = false
        ∧ c.message ≠ "" ∧ s = n ++ ": " ++ c.message) := by
    intro names
    induction names with
    | nil => intro h; exact absurd h (List.not_mem_nil s)
    | cons n rest ih =>
      intro h
      unfold criticalScan at h
      cases hg : mapGet m n with
      | none =>
        rw [hg] at h
        rcases List.mem_cons.mp h with h0 | h0
        · exact Or.inl ⟨n, List.mem_cons_self n rest, hg, h0⟩
        · rcases ih h0 with ⟨n', hn', hget, hform⟩ | ⟨n', c', hn', hget, hrdy, hmsg, hform⟩
          · exact Or.inl ⟨n', List.mem_cons_of_mem n hn', hget, hform⟩
          · exact Or.inr ⟨n', c', List.mem_cons_of_mem n hn', hget, hrdy, hmsg, hform⟩
      | some comp =>
        rw [hg] at h
        dsimp only at h
        by_cases hr : comp.ready
        · rw [if_pos hr] at h
          rcases ih h with ⟨n', hn', hget, hform⟩ | ⟨n', c', hn', hget, hrdy, hmsg, hform⟩
          · exact Or.inl ⟨n', List.mem_cons_of_mem n hn', hget, hform⟩
          · exact Or.inr ⟨n', c', List.mem_cons_of_mem n hn', hget, hrdy, hmsg, hform⟩
        · rw [if_neg hr] at h
          by_cases hm : comp.message ≠ ""
          · rw [if_pos hm] at h
            rcases List.mem_cons.mp h with h0 | h0
            · exact Or.inr ⟨n, comp, List.mem_cons_self n rest, hg,
                Bool.eq_false_iff.mpr hr, hm, h0⟩
            · rcases ih h0 with ⟨n', hn', hget, hform⟩ | ⟨n', c', hn', hget, hrdy, hmsg, hform⟩
              · exact Or.inl ⟨n', List.mem_cons_of_mem n hn', hget, hform⟩
              · exact Or.inr ⟨n', c', List.mem_cons_of_mem n hn', hget, hrdy, hmsg, hform⟩
          · rw [if_neg hm] at h
            rcases ih h with ⟨n', hn', hget, hform⟩ | ⟨n', c', hn', hget, hrdy, hmsg, hform⟩
            · exact Or.inl ⟨n', List.mem_cons_of_mem n hn', hget, hform⟩
            · exact Or.inr ⟨n', c', List.mem_cons_of_mem n hn', hget, hrdy, hmsg, hform⟩
  exact key criticalDeployments hs

theorem criticalScan_messages_characterized_witness :
    ("Critical component dataplane not found" ∈ (criticalScan scanCex criticalDeployments).2.2)
    ∧ ((∃ n, n ∈ criticalDeployments ∧ mapGet scanCex n = none
        ∧ "Critical component dataplane not found" = "Critical component " ++ n ++ " not found")
      ∨ (∃ n c, n ∈ criticalDeployments ∧ mapGet scanCex n = some c ∧ c.ready = false
        ∧ c.message ≠ ""
        ∧ "Critical component dataplane not found" = n ++ ": " ++ c.message)) :=
  ⟨by decide, criticalScan_messages_characterized scanCex _ (by decide)⟩

/- ## Response types (src/unnamed/part_000, types block) and status cache
(src/api/status/cache.go) -/

structure ParticipantStatusResponse where
  participantName : String
  status : ProvisioningStatus
  lastUpdated : Int
  components : AssocMap ComponentStatus
  message : String
  events : List Event
deriving DecidableEq, Repr

structure ParticipantSummary where
  participantName : String
  status : ProvisioningStatus
  lastUpdated : Int
deriving DecidableEq, Repr

/-- `cacheEntry`: a response plus its absolute expiry instant. -/
structure CacheEntry where
  response : ParticipantStatusResponse
  expiresAt : Int
deriving DecidableEq, Repr

/-- The `data` map of `statusCache`. -/
abbrev CacheMap := String → Option CacheEntry

/-- Embeds `statusCache.get`: a missing entry, or one whose expiry instant
lies strictly before `now` (`time.Now().After(entry.expiresAt)`), reads as
absent. -/
def cacheGet (data : CacheMap) (key : String) (now : Int) :
    Option ParticipantStatusResponse :=
  match data key with
  | none => none
  | some entry => if entry.expiresAt < now then none else some entry.response

/-- Embeds `statusCache.set`: the entry expires `ttl` after `now`. -/
def cacheSet (data : CacheMap) (key : String) (response : ParticipantStatusResponse)
    (now ttl : Int) : CacheMap :=
  fun k => if k = key then some ⟨response, now + ttl⟩ else data k

/-- C3: a read issued strictly after an entry's expiry instant returns
absent, whether the entry is still stored (not yet reaped) or already
removed by the reaper. -/
theorem cacheGet_expired_absent (data : CacheMap) (key : String) (now : Int)
    (entry : CacheEntry) (h : data key = some entry ∨ data key = none)
    (hexp : entry.expiresAt < now) :
    cacheGet data key now = none := by
  unfold cacheGet
  rcases h with h | h <;> simp [h, hexp]

theorem cacheGet_expired_absent_witness :
    cacheGet (fun _ => some ⟨⟨"p", StatusReady, 0, [], "", []⟩, 5⟩) "p" 6 = none :=
  cacheGet_expired_absent (fun _ => some ⟨⟨"p", StatusReady, 0, [], "", []⟩, 5⟩) "p" 6
    ⟨⟨"p", StatusReady, 0, [], "", []⟩, 5⟩ (Or.inl rfl) (by decide)

/-- The state of the cache's `stopChan` channel. -/
structure StopChan where
  closed : Bool
deriving DecidableEq, Repr

/-- Outcome of a Go call: a value, a returned error, or a runtime panic. -/
inductive GoOutcome (α : Type) where
  | ok (val : α)
  | goError (msg : String)
  | panicked (msg : String)
deriving DecidableEq, Repr

/-- Go's `close(ch)`: closing an already-closed channel panics the
goroutine (Go language specification). -/
def goCloseChan (ch : StopChan) : GoOutcome StopChan :=
  if ch.closed then .panicked "close of closed channel" else .ok ⟨true⟩

/-- Embeds `statusCache.stop`, whose body is exactly `close(c.stopChan)`
with no one-shot guard. -/
def cacheStop (ch : StopChan) : GoOutcome StopChan := goCloseChan ch

/-- C5 (code bug): the first `stop()` closes the channel; a second
`stop()` on the now-closed channel panics instead of being a no-op. -/
theorem cacheStop_twice_panics :
    cacheStop ⟨false⟩ = .ok ⟨true⟩
    ∧ cacheStop ⟨true⟩ = .panicked "close of closed channel" :=
  ⟨rfl, rfl⟩

/- ## Status checker orchestrator (src/unnamed/part_000) -/

/-- Result of `kubeClient.Get` on a namespace: Kubernetes not-found, a
namespace (with its nullable `DeletionTimestamp`), or another API error. -/
inductive NamespaceResult where
  | notFound
  | found (deletionTimestamp : Option Int)
  | apiError (msg : String)
deriving DecidableEq, Repr

/-- The Kubernetes API surface the status checker calls, plus the instant
`time.Now()` returns during the call. -/
structure KubeWorld where
  getNamespace : String → NamespaceResult
  listDeployments : String → Except String (List (String × DeploymentData))
  listStatefulSets : String → Except String (List (String × StatefulSetData))
  listEvents : String → Except String (List Event)
  listNamespaces : Except String (List String)
  now : Int

/-- Embeds `StatusChecker.getComponentStatuses`: deployments first, then
statefulsets, each keyed by resource name into the Go map. -/
def getComponentStatuses (w : KubeWorld) (ns : String) :
    Except String (AssocMap ComponentStatus) :=
  match w.listDeployments ns with
  | .error e => .error ("failed to list deployments: " ++ e)
  | .ok deps =>
    let components := deps.foldl (fun m p => mapSet m p.1 (GetDeploymentStatus p.2)) []
    match w.listStatefulSets ns with
    | .error e => .error ("failed to list statefulsets: " ++ e)
    | .ok stss =>
      .ok (stss.foldl (fun m p => mapSet m p.1 (GetStatefulSetStatus p.2)) components)

/-- Descending insertion by timestamp, embedding the effect of the
`sort.Slice` most-recent-first ordering. -/
def insertEventDesc (e : Event) : List Event → List Event
  | [] => [e]
  | x :: xs => if e.timestamp > x.timestamp then e :: x :: xs else x :: insertEventDesc e xs

def sortEventsDesc : List Event → List Event
  | [] => []
  | x :: xs => insertEventDesc x (sortEventsDesc xs)

/-- Embeds `StatusEvaluator.GetRecentEvents`: keep events strictly newer
than `now - 30` minutes, sort most-recent-first, truncate to 10. -/
def GetRecentEvents (w : KubeWorld) (ns : String) : Except String (List Event) :=
  match w.listEvents ns with
  | .error e => .error ("failed to list events: " ++ e)
  | .ok items =>
    let events := items.filter (fun ev => ev.timestamp > w.now - 30)
    let sorted := sortEventsDesc events
    .ok (if sorted.length > 10 then sorted.take 10 else sorted)

/-- Embeds `StatusChecker.GetParticipantStatus` (cache lookup, namespace
existence, deletion marker, component statuses, overall reduction, events
with graceful degradation, cache store).  The cache map is threaded
explicitly; `ttl` is the cache's TTL (10 seconds in `NewStatusChecker`). -/
def GetParticipantStatus (w : KubeWorld) (ttl : Int) (cache : CacheMap)
    (name : String) : Except String (ParticipantStatusResponse × CacheMap) :=
  match cacheGet cache name w.now with
  | some cached => .ok (cached, cache)
  | none =>
    match w.getNamespace name with
    | .apiError e => .error ("failed to get namespace: " ++ e)
    | .notFound =>
      let response : ParticipantStatusResponse :=
        ⟨name, StatusNotFound, w.now, [],
          "Namespace " ++ name ++ " does not exist", []⟩
      .ok (response, cacheSet cache name response w.now ttl)
    | .found deletionTimestamp =>
      if deletionTimestamp.isSome then
        let response : ParticipantStatusResponse :=
          ⟨name, StatusDeleting, w.now, [],
            "Namespace " ++ name ++ " is being deleted", []⟩
        .ok (response, cacheSet cache name response w.now ttl)
      else
        match getComponentStatuses w name with
        | .error e => .error ("failed to get component statuses: " ++ e)
        | .ok components =>
          let overall := DetermineOverallStatus components
          let events :=
            match GetRecentEvents w name with
            | .error _ => ([] : List Event)
            | .ok evs => evs
          let response : ParticipantStatusResponse :=
            ⟨name, overall.1, w.now, components, overall.2, events⟩
          .ok (response, cacheSet cache name response w.now ttl)

/-- C6: on a cache miss, a not-found namespace yields a successful
`NOT_FOUND` response with an empty component mapping, stored in the
cache; a namespace with a deletion marker yields a `DELETING` response
with an empty component mapping (also stored), whatever the component
listing would have returned. -/
theorem getParticipantStatus_notFound_deleting (w : KubeWorld) (ttl : Int)
    (cache : CacheMap) (name : String)
    (hmiss : cacheGet cache name w.now = none) :
    (w.getNamespace name = .notFound →
      ∃ r cache2, GetParticipantStatus w ttl cache name = .ok (r, cache2)
        ∧ r.status = StatusNotFound ∧ r.components = []
        ∧ cache2 name = some ⟨r, w.now + ttl⟩)
    ∧ (∀ t, w.getNamespace name = .found (some t) →
      ∃ r cache2, GetParticipantStatus w ttl cache name = .ok (r, cache2)
        ∧ r.status = StatusDeleting ∧ r.components = []
        ∧ cache2 name = some ⟨r, w.now + ttl⟩) := by
  constructor
  · intro hns
    have heq : GetParticipantStatus w ttl cache name =
        .ok (⟨name, StatusNotFound, w.now, [],
              "Namespace " ++ name ++ " does not exist", []⟩,
          cacheSet cache name
            ⟨name, StatusNotFound, w.now, [],
              "Namespace " ++ name ++ " does not exist", []⟩ w.now ttl) := by
      unfold GetParticipantStatus
      rw [hmiss, hns]
    exact ⟨_, _, heq, rfl, rfl, by unfold cacheSet; rw [if_pos rfl]⟩
  · intro t hns
    have heq : GetParticipantStatus w ttl cache name =
        .ok (⟨name, StatusDeleting, w.now, [],
              "Namespace " ++ name ++ " is being deleted", []⟩,
          cacheSet cache name
            ⟨name, StatusDeleting, w.now, [],
              "Namespace " ++ name ++ " is being deleted", []⟩ w.now ttl) := by
      unfold GetParticipantStatus
      rw [hmiss, hns]
      rfl
    exact ⟨_, _, heq, rfl, rfl, by unfold cacheSet; rw [if_pos rfl]⟩

theorem getParticipantStatus_notFound_deleting_witness :
    (∃ r cache2,
      GetParticipantStatus
        ⟨fun _ => .notFound, fun _ => .ok [], fun _ => .ok [], fun _ => .ok [], .ok [], 0⟩
        10 (fun _ => none) "p" = .ok (r, cache2)
      ∧ r.status = StatusNotFound ∧ r.components = []
      ∧ cache2 "p" = some ⟨r, 0 + 10⟩)
    ∧ (∃ r cache2,
      GetParticipantStatus
        ⟨fun _ => .found (some 7), fun _ => .ok [], fun _ => .ok [], fun _ => .ok [], .ok [], 0⟩
        10 (fun _ => none) "p" = .ok (r, cache2)
      ∧ r.status = StatusDeleting ∧ r.components = []
      ∧ cache2 "p" = some ⟨r, 0 + 10⟩) :=
  ⟨(getParticipantStatus_notFound_deleting
      ⟨fun _ => .notFound, fun _ => .ok [], fun _ => .ok [], fun _ => .ok [], .ok [], 0⟩
      10 (fun _ => none) "p" rfl).1 rfl,
   (getParticipantStatus_notFound_deleting
      ⟨fun _ => .found (some 7), fun _ => .ok [], fun _ => .ok [], fun _ => .ok [], .ok [], 0⟩
      10 (fun _ => none) "p" rfl).2 7 rfl⟩

/-- C7: on a cache miss where the namespace exists without deletion
marker and the component listing succeeds, a failing event sub-query
still yields a successful, fully populated response whose event sequence
is empty. -/
theorem getParticipantStatus_event_failure (w : KubeWorld) (ttl : Int)
    (cache : CacheMap) (name : String) (comps : AssocMap ComponentStatus) (emsg : String)
    (hmiss : cacheGet cache name w.now = none)
    (hns : w.getNamespace name = .found none)
    (hcomps : getComponentStatuses w name = .ok comps)
    (hevents : w.listEvents name = .error emsg) :
    GetParticipantStatus w ttl cache name =
      .ok (⟨name, (DetermineOverallStatus comps).1, w.now, comps,
            (DetermineOverallStatus comps).2, []⟩,
        cacheSet cache name
          ⟨name, (DetermineOverallStatus comps).1, w.now, comps,
            (DetermineOverallStatus comps).2, []⟩ w.now ttl) := by
  unfold GetParticipantStatus
  rw [hmiss, hns]
  have hre : GetRecentEvents w name = .error ("failed to list events: " ++ emsg) := by
    unfold GetRecentEvents
    rw [hevents]
  simp only [Option.isSome_none, Bool.false_eq_true, if_false, hcomps, hre]

theorem getParticipantStatus_event_failure_witness :
    GetParticipantStatus
      ⟨fun _ => .found none, fun _ => .ok [], fun _ => .ok [], fun _ => .error "boom",
        .ok [], 0⟩
      10 (fun _ => none) "p" =
      .ok (⟨"p", StatusProvisioning, 0, [],
            "No components found, provisioning may be in progress", []⟩,
        cacheSet (fun _ => none) "p"
          ⟨"p", StatusProvisioning, 0, [],
            "No components found, provisioning may be in progress", []⟩ 0 10) := by
  have h := getParticipantStatus_event_failure
    ⟨fun _ => .found none, fun _ => .ok [], fun _ => .ok [], fun _ => .error "boom",
      .ok [], 0⟩
    10 (fun _ => none) "p" [] "boom" rfl rfl rfl rfl
  exact h

/- ## Listing participants (src/unnamed/part_000, ListParticipants) -/

/-- Go: the `systemNamespaces` literal in `IsSystemNamespace`. -/
def systemNamespaces : List String :=
  ["kube-system", "kube-public", "kube-node-lease", "default"]

def IsSystemNamespace (name : String) : Bool := systemNamespaces.contains name

/-- Go: the `provisionerDeployments` literal in `isProvisionerDeployment`. -/
def isProvisionerDeployment (name : String) : Bool :=
  (["controlplane", "dataplane", "identityhub", "postgres"] : List String).contains name

/-- Embeds `StatusChecker.hasParticipantDeployments`. -/
def hasParticipantDeployments (w : KubeWorld) (ns : String) : Except String Bool :=
  match w.listDeployments ns with
  | .error e => .error e
  | .ok deps => .ok (deps.any (fun p => isProvisionerDeployment p.1))

/-- The per-namespace loop of `ListParticipants`: skip system namespaces,
namespaces without provisioner deployments (or whose probe errored), and
namespaces whose status lookup errored or does not match the filter; the
cache is threaded through the `GetParticipantStatus` calls. -/
def collectLoop (w : KubeWorld) (ttl : Int) (statusFilter : String) :
    List String → CacheMap → List ParticipantSummary × CacheMap
  | [], cache => ([], cache)
  | ns :: rest, cache =>
    if IsSystemNamespace ns then collectLoop w ttl statusFilter rest cache
    else
      match hasParticipantDeployments w ns with
      | .error _ => collectLoop w ttl statusFilter rest cache
      | .ok false => collectLoop w ttl statusFilter rest cache
      | .ok true =>
        match GetParticipantStatus w ttl cache ns with
        | .error _ => collectLoop w ttl statusFilter rest cache
        | .ok (status, cache2) =>
          if statusFilter ≠ "" ∧ status.status ≠ statusFilter then
            collectLoop w ttl statusFilter rest cache2
          else
            let r := collectLoop w ttl statusFilter rest cache2
            (⟨ns, status.status, status.lastUpdated⟩ :: r.1, r.2)

/-- The enumeration/filter part of `ListParticipants`, up to (and
including) the redundant second status filter; errors only when the
namespace enumeration itself errors. -/
def collectParticipants (w : KubeWorld) (ttl : Int) (cache : CacheMap)
    (statusFilter : String) : Except String (List ParticipantSummary × CacheMap) :=
  match w.listNamespaces with
  | .error e => .error ("failed to list namespaces: " ++ e)
  | .ok names =>
    let r := collectLoop w ttl statusFilter names cache
    .ok (if statusFilter ≠ "" then r.1.filter (fun p => p.status == statusFilter) else r.1,
      r.2)

/-- Go slice expression `xs[lo:hi]` on a slice of length `len(xs)`:
defined (as the elements from `lo` inclusive to `hi` exclusive) when
`0 ≤ lo ≤ hi ≤ len(xs)`, a runtime panic otherwise. -/
def goSlice {α : Type} (xs : List α) (lo hi : Int) : Option (List α) :=
  if 0 ≤ lo ∧ lo ≤ hi ∧ hi ≤ (xs.length : Int) then
    some ((xs.drop lo.toNat).take (hi - lo).toNat)
  else none

/-- Embeds `StatusChecker.ListParticipants`: enumeration/filtering, then
`total`, `start = (page-1)*limit`, `end = start+limit`, the
`start >= total` early return, the `end > total` clamp, and the final
`participants[start:end]` slice. -/
def ListParticipants (w : KubeWorld) (ttl : Int) (cache : CacheMap)
    (statusFilter : String) (page limit : Int) :
    GoOutcome (List ParticipantSummary × Int × CacheMap) :=
  match collectParticipants w ttl cache statusFilter with
  | .error e => .goError e
  | .ok (participants, cache2) =>
    if (page - 1) * limit ≥ (participants.length : Int) then
      .ok ([], (participants.length : Int), cache2)
    else
      match goSlice participants ((page - 1) * limit)
          (if (page - 1) * limit + limit > (participants.length : Int) then
            (participants.length : Int)
          else (page - 1) * limit + limit) with
      | none => .panicked "runtime error: slice bounds out of range"
      | some pageItems => .ok (pageItems, (participants.length : Int), cache2)

/-- C8: with `page ≥ 1` and `limit ≥ 1`, `ListParticipants` returns the
sub-sequence of the filtered participants from `(page-1)*limit` inclusive
to `min ((page-1)*limit + limit) total` exclusive together with the true
total, and in particular an empty sequence with the true total whenever
`(page-1)*limit ≥ total`. -/
theorem listParticipants_pagination (w : KubeWorld) (ttl : Int) (cache : CacheMap)
    (statusFilter : String) (page limit : Int) (parts : List ParticipantSummary)
    (cache2 : CacheMap)
    (hcollect : collectParticipants w ttl cache statusFilter = .ok (parts, cache2))
    (hpage : 1 ≤ page) (hlimit : 1 ≤ limit) :
    ListParticipants w ttl cache statusFilter page limit =
      .ok ((parts.drop ((page - 1) * limit).toNat).take
            ((min ((page - 1) * limit + limit) (parts.length : Int)
              - (page - 1) * limit).toNat),
        (parts.length : Int), cache2)
    ∧ ((parts.length : Int) ≤ (page - 1) * limit →
        ListParticipants w ttl cache statusFilter page limit =
          .ok ([], (parts.length : Int), cache2)) := by
  have hstart0 : (0 : Int) ≤ (page - 1) * limit := mul_nonneg (by omega) (by omega)
  unfold ListParticipants
  rw [hcollect]
  dsimp only
  by_cases hge : (page - 1) * limit ≥ (parts.length : Int)
  · rw [if_pos hge]
    have hz : ((min ((page - 1) * limit + limit) (parts.length : Int)
        - (page - 1) * limit).toNat) = 0 := by omega
    rw [hz]
    exact ⟨by rw [List.take_zero], fun _ => rfl⟩
  · rw [if_neg hge]
    push_neg at hge
    have hifmin : (if (page - 1) * limit + limit > (parts.length : Int) then
          (parts.length : Int)
        else (page - 1) * limit + limit)
        = min ((page - 1) * limit + limit) (parts.length : Int) := by
      split_ifs <;> omega
    rw [hifmin]
    unfold goSlice
    rw [if_pos ⟨hstart0, by omega, by omega⟩]
    exact ⟨rfl, fun hc => absurd hc (by omega)⟩

theorem listParticipants_pagination_witness :
    ListParticipants
      ⟨fun _ => .notFound, fun _ => .ok [("controlplane", ⟨some 1, 1, 1, 0⟩)],
        fun _ => .ok [], fun _ => .ok [], .ok ["alpha", "beta", "gamma"], 0⟩
      10 (fun _ => none) "" 2 2 =
      .ok ([⟨"gamma", StatusNotFound, 0⟩], 3, (collectParticipants
        ⟨fun _ => .notFound, fun _ => .ok [("controlplane", ⟨some 1, 1, 1, 0⟩)],
          fun _ => .ok [], fun _ => .ok [], .ok ["alpha", "beta", "gamma"], 0⟩
        10 (fun _ => none) "").toOption.get rfl |>.2) := by
  have h := (listParticipants_pagination
    ⟨fun _ => .notFound, fun _ => .ok [("controlplane", ⟨some 1, 1, 1, 0⟩)],
      fun _ => .ok [], fun _ => .ok [], .ok ["alpha", "beta", "gamma"], 0⟩
    10 (fun _ => none) "" 2 2
    [⟨"alpha", StatusNotFound, 0⟩, ⟨"beta", StatusNotFound, 0⟩, ⟨"gamma", StatusNotFound, 0⟩]
    _ rfl (by decide) (by decide)).1
  exact h

/-- C10: with `page ≤ 0` and `limit ≥ 1`, once the namespace enumeration
succeeds the pagination step panics: `start = (page-1)*limit` is negative,
the `start >= total` guard does not catch it, and the slice expression is
evaluated with a negative lower bound. -/
theorem listParticipants_nonpositive_page_panics (w : KubeWorld) (ttl : Int)
    (cache : CacheMap) (statusFilter : String) (page limit : Int)
    (parts : List ParticipantSummary) (cache2 : CacheMap)
    (hcollect : collectParticipants w ttl cache statusFilter = .ok (parts, cache2))
    (hpage : page ≤ 0) (hlimit : 1 ≤ limit) :
    ListParticipants w ttl cache statusFilter page limit =
      .panicked "runtime error: slice bounds out of range" := by
  have hneg : (page - 1) * limit ≤ -1 := by
    have h1 : (page - 1) * limit ≤ (page - 1) * 1 := by
      apply mul_le_mul_of_nonpos_left (by omega) (by omega)
    omega
  unfold ListParticipants
  rw [hcollect]
  dsimp only
  rw [if_neg (by omega)]
  unfold goSlice
  rw [if_neg (by omega)]

theorem listParticipants_nonpositive_page_panics_witness :
    ListParticipants
      ⟨fun _ => .notFound, fun _ => .ok [], fun _ => .ok [], fun _ => .ok [], .ok [], 0⟩
      10 (fun _ => none) "" 0 10 =
      .panicked "runtime error: slice bounds out of range" :=
  listParticipants_nonpositive_page_panics
    ⟨fun _ => .notFound, fun _ => .ok [], fun _ => .ok [], fun _ => .ok [], .ok [], 0⟩
    10 (fun _ => none) "" 0 10 [] _ rfl (by decide) (by decide)
